import Mathlib

/-!
Verification of the friendlychat-web cloud functions
(`src/web/functions/index.js`) against its specification.

The three handlers — `addWelcomeMessages`, `blurOffensiveImages` (with its
helper `blurImage`) and `sendNotifications` (with its helper
`cleanupTokens`) — are shallowly embedded below.  Pure computations
(payload building, likelihood thresholding, token filtering) become Lean
functions; the effectful moderation pipeline becomes a function that is
parameterised by the outcome of each external step and returns the list of
side effects it performed together with a success flag, so that
"calls download exactly once", "the scratch file is deleted", etc. are
statements about that trace.
-/

namespace FriendlyChat

/-! ## Likelihood scale (Google Cloud Vision `Likelihood` enum)

`Likelihood[safeSearchResult.adult]` in JS looks the likelihood string up
in the enum object; an unrecognized string yields `undefined`, and
`undefined >= Likelihood.LIKELY` is `false`. -/

/-- The six-level ordinal Vision likelihood scale, as a lookup from the
likelihood string to its numeric enum value; unrecognized strings give
`none` (JS `undefined`). -/
def likelihoodOrd : String → Option Nat
  | "UNKNOWN" => some 0
  | "VERY_UNLIKELY" => some 1
  | "UNLIKELY" => some 2
  | "POSSIBLE" => some 3
  | "LIKELY" => some 4
  | "VERY_LIKELY" => some 5
  | _ => none

/-- JS `Likelihood[s] >= Likelihood.LIKELY`: `undefined` compares false. -/
def likelihoodAtLeastLikely (s : String) : Bool :=
  match likelihoodOrd s with
  | some n => decide (4 ≤ n)
  | none => false

/-- The classifier verdict: likelihood strings for the two categories the
handler inspects. -/
structure SafeSearchResult where
  adult : String
  violence : String
deriving DecidableEq

/-- The condition of the `if` in `blurOffensiveImages`. -/
def isInappropriate (r : SafeSearchResult) : Bool :=
  likelihoodAtLeastLikely r.adult || likelihoodAtLeastLikely r.violence

/-! ## Paths and scratch files -/

/-- JS `path.sep` on the deployment platform. -/
def pathSep : Char := '/'

/-- JS `os.tmpdir()` on the deployment platform. -/
def tmpDir : String := "/tmp"

/-- Auxiliary for `jsSplit`: walks the characters, `acc` holding the
(reversed) characters of the current segment. -/
def splitAux (sep : Char) : List Char → List Char → List String
  | [], acc => [String.mk acc.reverse]
  | c :: cs, acc =>
    if c = sep then String.mk acc.reverse :: splitAux sep cs []
    else splitAux sep cs (c :: acc)

/-- JS `String.prototype.split` with a one-character separator: the
segments between separators, empty segments included (so the result of
splitting the empty string is one empty segment). -/
def jsSplit (s : String) (sep : Char) : List String :=
  splitAux sep s.data []

/-- JS `path.basename`: trailing separators are ignored, then the part
after the last separator is returned. -/
def baseName (p : String) : String :=
  match (jsSplit p pathSep).reverse.dropWhile (fun s => s = "") with
  | [] => ""
  | b :: _ => b

/-- The scratch-file path `path.join(os.tmpdir(), path.basename(filePath))`. -/
def tempLocalFile (filePath : String) : String :=
  tmpDir ++ "/" ++ baseName filePath

/-- The expression `filePath.split(path.sep)[1]`: the second path segment,
or JS `undefined` when there is none. -/
def messageIdOf (filePath : String) : Option String :=
  (jsSplit filePath pathSep).get? 1

/-! ## The moderation pipeline as an effect trace -/

/-- One side effect performed by the moderation pipeline. -/
inductive Effect where
  /-- the bucket download of `src` to the scratch file `dest` -/
  | download (src : String) (dest : String)
  /-- the ImageMagick blur `spawn` on the scratch file -/
  | blur (file : String)
  /-- the bucket upload of the scratch file back to `dest` -/
  | upload (file : String) (dest : String)
  /-- the `fs.unlinkSync` of the scratch file -/
  | unlink (file : String)
  /-- the attempted Firestore update of `messages/id` setting `moderated` -/
  | updateMessage (id : String) (moderated : Bool)
deriving DecidableEq

def Effect.isDownload : Effect → Bool
  | .download _ _ => true
  | _ => false

def Effect.isBlur : Effect → Bool
  | .blur _ => true
  | _ => false

def Effect.isUpload : Effect → Bool
  | .upload _ _ => true
  | _ => false

def Effect.isUpdate : Effect → Bool
  | .updateMessage _ _ => true
  | _ => false

/-- Outcome of each external step of one `blurImage` invocation: whether
the bucket download, the blur spawn, the bucket upload and the Firestore
update succeed.  The code `await`s each step in sequence, so a failing
step rejects the promise and nothing after it runs. -/
structure BlurEnv where
  downloadOk : Bool
  blurOk : Bool
  uploadOk : Bool
  updateOk : Bool
deriving DecidableEq

/-- Shallow embedding of `blurImage(filePath)`: the list of side effects
performed (in order) and whether the invocation succeeded.  Each `await`ed
step appears in the trace when reached; a failing step ends the run.
`fs.unlinkSync` runs only after a successful upload (there is no
`try/finally`).  The final Firestore update calls `.doc(messageId)` with a
JS `undefined` argument when the path has no second segment, which throws
before any store interaction, so no update effect is recorded there. -/
def blurImage (filePath : String) (env : BlurEnv) : List Effect × Bool :=
  let tmp := tempLocalFile filePath
  let afterDownload := [Effect.download filePath tmp]
  if !env.downloadOk then (afterDownload, false) else
  let afterBlur := afterDownload ++ [Effect.blur tmp]
  if !env.blurOk then (afterBlur, false) else
  let afterUpload := afterBlur ++ [Effect.upload tmp filePath]
  if !env.uploadOk then (afterUpload, false) else
  let afterUnlink := afterUpload ++ [Effect.unlink tmp]
  match messageIdOf filePath with
  | none => (afterUnlink, false)
  | some mid =>
    (afterUnlink ++ [Effect.updateMessage mid true], env.updateOk)

/-- The finalized storage object the handler receives. -/
structure StorageObject where
  bucket : String
  name : String
deriving DecidableEq

/-- Shallow embedding of the `blurOffensiveImages` handler body, given the
classifier verdict `r` for the object's image: if either category is at
least LIKELY it runs `blurImage(object.name)`, otherwise it only logs and
returns (empty effect trace, success). -/
def blurOffensiveImages (object : StorageObject) (r : SafeSearchResult)
    (env : BlurEnv) : List Effect × Bool :=
  if isInappropriate r then blurImage object.name env
  else ([], true)

/-- The scratch file is created exactly when the bucket download
succeeds. -/
def scratchCreated (env : BlurEnv) : Bool := env.downloadOk

/-- Whether the scratch file still exists once `blurImage filePath env`
has returned: it was created and no `unlink` of it is in the trace. -/
def scratchExistsAfter (filePath : String) (env : BlurEnv) : Bool :=
  scratchCreated env &&
    !((blurImage filePath env).1.contains (Effect.unlink (tempLocalFile filePath)))

/-! ## Notification fan-out (`sendNotifications` / `cleanupTokens`) -/

/-- The fields of the created message document that the handler reads:
`snapshot.data().text` and companions can be absent (JS `undefined`). -/
structure Snapshot where
  name : String
  text : Option String
  profilePicUrl : Option String
deriving DecidableEq

/-- JS truthiness of the optional `text` field: `undefined` and the empty
string are falsy. -/
def textTruthy : Option String → Bool
  | none => false
  | some t => !(t = "")

/-- The payload title: the template string
composed of the author name, " posted " and either "a message" or
"an image" depending on the truthiness of `text`. -/
def notificationTitle (snap : Snapshot) : String :=
  snap.name ++ " posted " ++
    (if textTruthy snap.text then "a message" else "an image")

/-- The payload body:
`text ? (text.length <= 100 ? text : text.substring(0, 97) + ...) : empty`. -/
def notificationBody (text : Option String) : String :=
  if textTruthy text then
    match text with
    | some t => if t.length ≤ 100 then t else t.take 97 ++ "..."
    | none => ""
  else ""

/-- The payload icon: `profilePicUrl` if truthy, else the placeholder. -/
def notificationIcon (snap : Snapshot) : String :=
  match snap.profilePicUrl with
  | some u => if u = "" then "/images/profile_placeholder.png" else u
  | none => "/images/profile_placeholder.png"

/-- One per-token result from `messaging().sendToDevice`: the FCM error
code when delivery to that token failed, `none` on success. -/
structure SendResult where
  errorCode : Option String
deriving DecidableEq

/-- One side effect performed by the notification fan-out. -/
inductive NotifyEffect where
  /-- the single batched `sendToDevice(tokens, payload)` call -/
  | sendToDevice (tokens : List String)
  /-- a Firestore `collection(coll).doc(docId).delete()` call -/
  | deleteDoc (coll : String) (docId : String)
deriving DecidableEq

def NotifyEffect.isSend : NotifyEffect → Bool
  | .sendToDevice _ => true
  | _ => false

/-- A delete issued against the given collection. -/
def NotifyEffect.deletesFrom (coll : String) : NotifyEffect → Bool
  | .deleteDoc c _ => c = coll
  | _ => false

/-- Shallow embedding of `cleanupTokens(response, tokens)`: walks the
per-token results with their index (`tokens[index]` is the token at the
same position), and for an error of code
`messaging/invalid-registration-token` or
`messaging/registration-token-not-registered` pushes a delete of the
document keyed by the token — in the code, of
`firestore().collection(messagesCollection).doc(tokens[index])`, i.e. a
document of the `messages` collection, not of `fcmTokens`.  Other errors
are only logged. -/
def cleanupTokens (results : List SendResult) (tokens : List String) :
    List NotifyEffect :=
  (results.zip tokens).filterMap fun rt =>
    match rt.1.errorCode with
    | some code =>
      if code = "messaging/invalid-registration-token" ||
         code = "messaging/registration-token-not-registered" then
        some (NotifyEffect.deleteDoc "messages" rt.2)
      else
        none
    | none => none

/-- Shallow embedding of the `sendNotifications` handler body.  `tokens`
is the list of document ids read from the `fcmTokens` collection;
`results` are the per-token dispatch results the Push Dispatcher would
return for them.  If the token list is nonempty the handler dispatches
once and then runs `cleanupTokens`; otherwise it does nothing. -/
def sendNotifications (tokens : List String) (results : List SendResult) :
    List NotifyEffect :=
  if tokens.length > 0 then
    NotifyEffect.sendToDevice tokens :: cleanupTokens results tokens
  else []

/-! ## Welcome message emitter (`addWelcomeMessages`) -/

/-- The message document the emitter appends (the server-assigned
timestamp is outside the model). -/
structure MessageDoc where
  name : String
  profilePicUrl : String
  text : String
deriving DecidableEq

/-- JS `user.displayName || 'Anonymous'`: `undefined` and the empty
string are falsy. -/
def fullNameOf : Option String → String
  | none => "Anonymous"
  | some d => if d = "" then "Anonymous" else d

/-- Shallow embedding of the `addWelcomeMessages` handler body: the
document added to the `messages` collection for a newly created user with
the given (optional) display name. -/
def addWelcomeMessages (displayName : Option String) : MessageDoc :=
  { name := "Firebase Bot"
    profilePicUrl := "/images/firebase-logo.png"
    text := fullNameOf displayName ++ " signed in for the first time! Welcome!" }

/-! ## Theorems -/

/-- When download, blur and upload all succeed and the path has a second
segment, `blurImage` performs exactly the five-step trace of the source,
succeeding iff the Firestore update does. -/
theorem blurImage_steps_ok (p : String) (env : BlurEnv) (mid : String)
    (hd : env.downloadOk = true) (hb : env.blurOk = true)
    (hu : env.uploadOk = true) (hm : messageIdOf p = some mid) :
    blurImage p env =
      ([Effect.download p (tempLocalFile p), Effect.blur (tempLocalFile p),
        Effect.upload (tempLocalFile p) p, Effect.unlink (tempLocalFile p),
        Effect.updateMessage mid true], env.updateOk) := by
  simp [blurImage, hd, hb, hu, hm]

/-- C1: for every classifier result in which the adult likelihood or the
violence likelihood is ordinally at least LIKELY, the handler runs the
blur path exactly once (provided the blur path's three external steps do
not fail): it downloads exactly once, blurs exactly once, uploads the
blurred file back to the same object path exactly once, and then attempts
exactly one update of the message identified by the path's second
segment, setting `moderated := true`. -/
theorem c1_unsafe_blur_path_exactly_once
    (object : StorageObject) (r : SafeSearchResult) (env : BlurEnv)
    (mid : String)
    (hr : isInappropriate r = true)
    (hm : messageIdOf object.name = some mid)
    (hd : env.downloadOk = true) (hb : env.blurOk = true)
    (hu : env.uploadOk = true) :
    (blurOffensiveImages object r env).1.countP Effect.isDownload = 1 ∧
    (blurOffensiveImages object r env).1.countP Effect.isBlur = 1 ∧
    (blurOffensiveImages object r env).1.countP Effect.isUpload = 1 ∧
    (blurOffensiveImages object r env).1.count
      (Effect.upload (tempLocalFile object.name) object.name) = 1 ∧
    (blurOffensiveImages object r env).1.countP Effect.isUpdate = 1 ∧
    (blurOffensiveImages object r env).1.count
      (Effect.updateMessage mid true) = 1 := by
  simp [blurOffensiveImages, hr,
    blurImage_steps_ok object.name env mid hd hb hu hm,
    List.countP_cons, List.count_cons, Effect.isDownload, Effect.isBlur,
    Effect.isUpload, Effect.isUpdate]

/-- Witness for C1, at the spec's scenario: path
`images/msg123/photo.png`, classifier verdict adult = LIKELY,
violence = UNLIKELY, all steps succeeding. -/
theorem c1_witness :
    isInappropriate ⟨"LIKELY", "UNLIKELY"⟩ = true ∧
    messageIdOf "images/msg123/photo.png" = some "msg123" ∧
    (blurOffensiveImages ⟨"b", "images/msg123/photo.png"⟩
        ⟨"LIKELY", "UNLIKELY"⟩ ⟨true, true, true, true⟩).1.count
      (Effect.updateMessage "msg123" true) = 1 :=
  ⟨by decide, by decide,
    (c1_unsafe_blur_path_exactly_once ⟨"b", "images/msg123/photo.png"⟩
      ⟨"LIKELY", "UNLIKELY"⟩ ⟨true, true, true, true⟩ "msg123"
      (by decide) (by decide) rfl rfl rfl).2.2.2.2.2⟩

/-- C2: for every classifier result in which neither the adult likelihood
nor the violence likelihood reaches LIKELY, the handler performs no
download, no upload and no message mutation: its effect trace is empty
(it only logs) and it returns successfully. -/
theorem c2_safe_image_no_effects
    (object : StorageObject) (r : SafeSearchResult) (env : BlurEnv)
    (hr : isInappropriate r = false) :
    blurOffensiveImages object r env = ([], true) := by
  simp [blurOffensiveImages, hr]

/-- Witness for C2: adult = POSSIBLE, violence = UNLIKELY is below the
threshold, so the trace is empty. -/
theorem c2_witness :
    isInappropriate ⟨"POSSIBLE", "UNLIKELY"⟩ = false ∧
    blurOffensiveImages ⟨"b", "images/msg123/photo.png"⟩
      ⟨"POSSIBLE", "UNLIKELY"⟩ ⟨true, true, true, true⟩ = ([], true) :=
  ⟨by decide,
    c2_safe_image_no_effects ⟨"b", "images/msg123/photo.png"⟩
      ⟨"POSSIBLE", "UNLIKELY"⟩ ⟨true, true, true, true⟩ (by decide)⟩

/-- C9: a classifier result whose likelihood strings are not among the six
recognized levels yields no ordinal for either category, the threshold
comparison is false, and the handler takes the safe branch: empty effect
trace, success. -/
theorem c9_unrecognized_likelihood_safe_branch
    (object : StorageObject) (r : SafeSearchResult) (env : BlurEnv)
    (ha : likelihoodOrd r.adult = none)
    (hv : likelihoodOrd r.violence = none) :
    isInappropriate r = false ∧
    blurOffensiveImages object r env = ([], true) := by
  have hr : isInappropriate r = false := by
    simp [isInappropriate, likelihoodAtLeastLikely, ha, hv]
  exact ⟨hr, by simp [blurOffensiveImages, hr]⟩

/-- Witness for C9: garbage likelihood strings take the safe branch. -/
theorem c9_witness :
    likelihoodOrd "GARBAGE" = none ∧ likelihoodOrd "" = none ∧
    isInappropriate ⟨"GARBAGE", ""⟩ = false ∧
    blurOffensiveImages ⟨"b", "images/msg123/photo.png"⟩ ⟨"GARBAGE", ""⟩
      ⟨true, true, true, true⟩ = ([], true) :=
  ⟨by decide, by decide,
    (c9_unrecognized_likelihood_safe_branch ⟨"b", "images/msg123/photo.png"⟩
      ⟨"GARBAGE", ""⟩ ⟨true, true, true, true⟩ (by decide) (by decide)).1,
    (c9_unrecognized_likelihood_safe_branch ⟨"b", "images/msg123/photo.png"⟩
      ⟨"GARBAGE", ""⟩ ⟨true, true, true, true⟩ (by decide) (by decide)).2⟩

/-- C4 counterexample: the claim that the scratch file never survives the
blur path is false on the code.  With the path of the spec's scenario and
an environment whose blur `spawn` fails, the scratch file was created
(the download succeeded) yet still exists when the pipeline returns,
because `fs.unlinkSync` only runs after a successful upload — there is no
`try/finally` in `blurImage`. -/
theorem c4_counterexample_blur_failure_leaks_scratch :
    scratchCreated ⟨true, false, true, true⟩ = true ∧
    scratchExistsAfter "images/msg123/photo.png" ⟨true, false, true, true⟩
      = true := by
  decide

/-- C4 amended: the scratch file survives `blurImage` exactly when the
download succeeded but the blur transform or the re-upload failed.  In
particular the cleanup does run whenever download, blur and upload all
succeed — even when the Firestore update then fails or the path has no
second segment — but a transform or re-upload failure skips it. -/
theorem c4_amended_scratch_survives_iff_blur_or_upload_fails
    (p : String) (env : BlurEnv) :
    scratchExistsAfter p env
      = (env.downloadOk && (!env.blurOk || !env.uploadOk)) := by
  obtain ⟨d, b, u, m⟩ := env
  cases d <;> cases b <;> cases u <;>
    cases hm : messageIdOf p <;>
      simp [scratchExistsAfter, scratchCreated, blurImage, hm]

/-- C5 counterexample: the claim that an unsafe image with an
unextractable message id causes no partial mutation is false on the code.
For the path `photo.png` (no second segment) and an unsafe verdict, the
pipeline downloads, blurs and re-uploads: the blob at the object path is
overwritten with the blurred file before the invocation fails at the
Firestore update step. -/
theorem c5_counterexample_no_id_blob_overwritten :
    messageIdOf "photo.png" = none ∧
    isInappropriate ⟨"LIKELY", "UNLIKELY"⟩ = true ∧
    (blurOffensiveImages ⟨"b", "photo.png"⟩ ⟨"LIKELY", "UNLIKELY"⟩
        ⟨true, true, true, true⟩).1.contains
      (Effect.upload (tempLocalFile "photo.png") "photo.png") = true ∧
    (blurOffensiveImages ⟨"b", "photo.png"⟩ ⟨"LIKELY", "UNLIKELY"⟩
        ⟨true, true, true, true⟩).2 = false := by
  decide

/-- C5 amended: on an unsafe image whose path has no second segment the
invocation does fail and no message update is ever attempted, but the
mutation of the blob store is not avoided: whenever download, blur and
upload succeed, the blurred file has overwritten the original object
before the failure. -/
theorem c5_amended_no_id_fails_after_overwriting_blob
    (object : StorageObject) (r : SafeSearchResult) (env : BlurEnv)
    (hr : isInappropriate r = true)
    (hm : messageIdOf object.name = none) :
    (blurOffensiveImages object r env).1.countP Effect.isUpdate = 0 ∧
    (blurOffensiveImages object r env).2 = false ∧
    (env.downloadOk = true → env.blurOk = true → env.uploadOk = true →
      Effect.upload (tempLocalFile object.name) object.name ∈
        (blurOffensiveImages object r env).1) := by
  obtain ⟨d, b, u, m⟩ := env
  cases d <;> cases b <;> cases u <;>
    simp [blurOffensiveImages, hr, blurImage, hm, Effect.isUpdate,
      List.countP_cons]

/-- Witness for the amended C5, at path `photo.png` with an unsafe
verdict and every step able to succeed. -/
theorem c5_amended_witness :
    isInappropriate ⟨"LIKELY", "UNLIKELY"⟩ = true ∧
    messageIdOf "photo.png" = none ∧
    ((blurOffensiveImages ⟨"b", "photo.png"⟩ ⟨"LIKELY", "UNLIKELY"⟩
        ⟨true, true, true, true⟩).1.countP Effect.isUpdate = 0 ∧
      (blurOffensiveImages ⟨"b", "photo.png"⟩ ⟨"LIKELY", "UNLIKELY"⟩
        ⟨true, true, true, true⟩).2 = false ∧
      Effect.upload (tempLocalFile "photo.png") "photo.png" ∈
        (blurOffensiveImages ⟨"b", "photo.png"⟩ ⟨"LIKELY", "UNLIKELY"⟩
          ⟨true, true, true, true⟩).1) :=
  ⟨by decide, by decide,
    (c5_amended_no_id_fails_after_overwriting_blob ⟨"b", "photo.png"⟩
      ⟨"LIKELY", "UNLIKELY"⟩ ⟨true, true, true, true⟩
      (by decide) (by decide)).1,
    (c5_amended_no_id_fails_after_overwriting_blob ⟨"b", "photo.png"⟩
      ⟨"LIKELY", "UNLIKELY"⟩ ⟨true, true, true, true⟩
      (by decide) (by decide)).2.1,
    (c5_amended_no_id_fails_after_overwriting_blob ⟨"b", "photo.png"⟩
      ⟨"LIKELY", "UNLIKELY"⟩ ⟨true, true, true, true⟩
      (by decide) (by decide)).2.2 rfl rfl rfl⟩

/-- A nonempty string has nonzero length. -/
theorem length_ne_zero_of_ne_empty (t : String) (h : t ≠ "") :
    t.length ≠ 0 := by
  intro hl
  apply h
  cases t with
  | mk data =>
    cases data with
    | nil => rfl
    | cons c cs => simp [String.length] at hl

/-- Stated from the spec's words for C6, to be compared with the source's
`notificationBody`: the body is the empty string when the text is absent
or has length 0, the text unchanged when its length is at most 100, and
the first 97 characters followed by an ellipsis when its length exceeds
100. -/
def specNotificationBody : Option String → String
  | none => ""
  | some t =>
    if t.length = 0 then ""
    else if t.length ≤ 100 then t
    else t.take 97 ++ "..."

/-- C6: for every message text, the source's notification payload body
agrees with the spec's description: empty when the text is absent or of
length 0, unchanged up to length 100, first 97 characters plus an
ellipsis beyond that. -/
theorem c6_notification_body_matches_spec (text : Option String) :
    notificationBody text = specNotificationBody text := by
  cases text with
  | none => rfl
  | some t =>
    by_cases h : t = ""
    · subst h; rfl
    · simp [notificationBody, specNotificationBody, textTruthy, h,
        length_ne_zero_of_ne_empty t h]

/-- String concatenation is associative. -/
theorem string_append_assoc (a b c : String) : a ++ b ++ c = a ++ (b ++ c) := by
  apply String.ext
  simp [String.data_append]

/-- C7: when the set of device tokens read from the token collection is
empty, the fan-out performs no effect at all: the dispatcher is not
called and no delete is issued, whatever the dispatch results would have
been. -/
theorem c7_no_tokens_no_dispatch (results : List SendResult) :
    sendNotifications [] results = [] ∧
    (sendNotifications [] results).countP NotifyEffect.isSend = 0 ∧
    ∀ coll, (sendNotifications [] results).countP
      (NotifyEffect.deletesFrom coll) = 0 := by
  simp [sendNotifications]

/-- C10: a created message whose `text` field is present but empty is
treated as image-only: the payload title is the author name followed by
" posted an image" (and differs from the "posted a message" title), and
the payload body is empty. -/
theorem c10_empty_text_is_image_only (snap : Snapshot)
    (h : snap.text = some "") :
    notificationTitle snap = snap.name ++ " posted an image" ∧
    notificationTitle snap ≠ snap.name ++ " posted a message" ∧
    notificationBody snap.text = "" := by
  have htitle : notificationTitle snap = snap.name ++ " posted an image" := by
    have ht : textTruthy (some "") = false := by decide
    simp only [notificationTitle, h, ht, Bool.false_eq_true, if_false]
    rw [string_append_assoc]
    rw [show (" posted " ++ "an image" : String) = " posted an image" by decide]
  refine ⟨htitle, ?_, by simp [notificationBody, h, textTruthy]⟩
  rw [htitle]
  intro hcontra
  have hlen := congrArg String.length hcontra
  simp [String.length_append] at hlen
  exact absurd hlen (by decide)

/-- Witness for C10, for the author name "Alice". -/
theorem c10_witness :
    (Snapshot.text ⟨"Alice", some "", none⟩ = some "") ∧
    notificationTitle ⟨"Alice", some "", none⟩ = "Alice posted an image" ∧
    notificationBody (some "") = "" :=
  ⟨rfl,
    by
      rw [(c10_empty_text_is_image_only ⟨"Alice", some "", none⟩ rfl).1]
      decide,
    (c10_empty_text_is_image_only ⟨"Alice", some "", none⟩ rfl).2.2⟩

/-- Every delete issued by `cleanupTokens` targets the `messages`
collection, so no document of the `fcmTokens` token collection is ever
deleted by the cleanup. -/
theorem cleanupTokens_deletes_target_messages
    (results : List SendResult) (tokens : List String)
    (e : NotifyEffect) (he : e ∈ cleanupTokens results tokens) :
    e.deletesFrom "messages" = true ∧ e.deletesFrom "fcmTokens" = false := by
  simp only [cleanupTokens, List.mem_filterMap] at he
  obtain ⟨⟨r, tok⟩, _, hf⟩ := he
  split at hf
  · split at hf
    · cases hf
      exact ⟨by simp [NotifyEffect.deletesFrom], by simp [NotifyEffect.deletesFrom]⟩
    · exact absurd hf (by simp)
  · exact absurd hf (by simp)

/-- C3, evaluated at the spec's scenario: token A errors with
"not registered", token B with "invalid token", token C succeeds.  The
cleanup issues exactly two deletes, both keyed by the stale token but
both against the `messages` collection; no document of the `fcmTokens`
token collection (read at the start of the handler) is deleted.  This
contradicts the claim — and the function's own stated purpose of cleaning
up the stale token registrations. -/
theorem c3_cleanup_deletes_from_wrong_collection :
    cleanupTokens
      [⟨some "messaging/registration-token-not-registered"⟩,
        ⟨some "messaging/invalid-registration-token"⟩, ⟨none⟩]
      ["tokA", "tokB", "tokC"]
      = [NotifyEffect.deleteDoc "messages" "tokA",
        NotifyEffect.deleteDoc "messages" "tokB"] ∧
    (cleanupTokens
      [⟨some "messaging/registration-token-not-registered"⟩,
        ⟨some "messaging/invalid-registration-token"⟩, ⟨none⟩]
      ["tokA", "tokB", "tokC"]).countP
        (NotifyEffect.deletesFrom "fcmTokens") = 0 := by
  decide

/-- C8 counterexample: for a user whose display name is present but
equal to the empty string, the welcome text is the "Anonymous" one — JS
`user.displayName || 'Anonymous'` treats the empty string as absent — and
not the empty name followed by the greeting, as the claim's second arm
states for every display name `d`. -/
theorem c8_counterexample_empty_display_name :
    (addWelcomeMessages (some "")).text
      = "Anonymous signed in for the first time! Welcome!" ∧
    (addWelcomeMessages (some "")).text
      ≠ " signed in for the first time! Welcome!" := by
  decide

/-- C8 amended: for a user whose display name is absent or empty the
welcome text is exactly "Anonymous signed in for the first time!
Welcome!", and for a nonempty display name `d` it is `d` followed by
" signed in for the first time! Welcome!". -/
theorem c8_amended_welcome_text (d : String) (hd : d ≠ "") :
    (addWelcomeMessages none).text
      = "Anonymous signed in for the first time! Welcome!" ∧
    (addWelcomeMessages (some "")).text
      = "Anonymous signed in for the first time! Welcome!" ∧
    (addWelcomeMessages (some d)).text
      = d ++ " signed in for the first time! Welcome!" := by
  refine ⟨by decide, by decide, ?_⟩
  simp [addWelcomeMessages, fullNameOf, hd]

/-- Witness for the amended C8, at display name "Alice". -/
theorem c8_amended_witness :
    ("Alice" : String) ≠ "" ∧
    (addWelcomeMessages (some "Alice")).text
      = "Alice signed in for the first time! Welcome!" :=
  ⟨by decide,
    by
      rw [(c8_amended_welcome_text "Alice" (by decide)).2.2]
      decide⟩

end FriendlyChat
